import Mathlib

/-!
Verification of the clinic classification, aggregation and client
filter/search pipeline of the dermatology-directory repository.

The definitions below are shallow embeddings of the TypeScript sources:
* `parseAddressComponents`, `isDermatologyClinic` (via `classifyPlace`),
  `transformPlace`, `checkRequestLimit`, `textSearchCity` — from the
  comprehensive collection script (src/unnamed/part_003);
* `makeRequest`, `batchCollect` — from src/scripts/collectAllStates.ts;
* `handleSearch`, `handleLocationSearch`, `applyFilters` — from the
  clinics page (src/unnamed/part_000);
* `VALID_US_STATES_cleanup` — from the database cleanup script
  (src/unnamed/part_005).

JavaScript `null`/`undefined` is modelled by `Option`, string truthiness
(`""` is falsy) by `jsTruthyStr`, numbers by `ℚ`/`ℕ`, and
`String.prototype.includes` by `includesStr`.
-/

/-- `needle` is a leading segment of `hay`. -/
def leadsList : List Char → List Char → Bool
  | [], _ => true
  | _ :: _, [] => false
  | a :: as, b :: bs => a == b && leadsList as bs

/-- `needle` occurs contiguously inside `hay`. -/
def includesList (hay needle : List Char) : Bool :=
  if leadsList needle hay then true
  else
    match hay with
    | [] => false
    | _ :: t => includesList t needle

/-- Substring containment: JS `hay.includes(sub)`. -/
def includesStr (hay sub : String) : Bool :=
  includesList hay.toList sub.toList

/-- JS `toLowerCase()`, character-wise (ASCII letters, which is all the
collection scripts' fixed term lists use). -/
def jsToLower (s : String) : String :=
  ⟨s.data.map Char.toLower⟩

/-- JS `trim()`: strip leading and trailing whitespace. -/
def jsTrim (s : String) : String :=
  ⟨((s.data.dropWhile Char.isWhitespace).reverse.dropWhile Char.isWhitespace).reverse⟩

/-- JS truthiness of a nullable string: `null`, `undefined` and `""` are falsy. -/
def jsTruthyStr : Option String → Bool
  | none => false
  | some s => !(s == "")

/-- One entry of a raw place's `addressComponents` list. -/
structure AddressComponent where
  types : List String
  shortText : Option String
  longText : Option String
deriving Repr, DecidableEq

/-- The result shape of `parseAddressComponents` (part_003, lines 175-189). -/
structure ParsedAddress where
  state_code : Option String
  city : Option String
  postal_code : Option String
  country_code : Option String
deriving Repr, DecidableEq

/-- `components?.find(c => c.types?.includes(type))` (part_003, line 181). -/
def findComponent (components : List AddressComponent) (t : String) : Option AddressComponent :=
  components.find? (fun c => c.types.contains t)

/-- `parseAddressComponents` (part_003, lines 175-189). -/
def parseAddressComponents (components : List AddressComponent) : ParsedAddress :=
  { state_code := (findComponent components "administrative_area_level_1").bind (·.shortText)
    city := ((findComponent components "locality").bind (·.longText)).orElse
      (fun _ => (findComponent components "postal_town").bind (·.longText))
    postal_code := (findComponent components "postal_code").bind (·.longText)
    country_code := (findComponent components "country").bind (·.shortText) }

/-- The keys of the `US_STATES` record of part_003 (lines 62-124): the ten
states that carry bounding boxes and major-city lists; the record ends with
the comment "Add more states as needed...". -/
def US_STATES_KEYS : List String :=
  ["CA", "TX", "FL", "NY", "PA", "IL", "OH", "GA", "NC", "MI"]

/-- `VALID_US_STATES = new Set(Object.keys(US_STATES))` (part_003, line 126). -/
def VALID_US_STATES : List String := US_STATES_KEYS

/-- The `VALID_US_STATES` array of the cleanup script (part_005): the 50
state codes plus DC. -/
def VALID_US_STATES_cleanup : List String :=
  ["AL", "AK", "AZ", "AR", "CA", "CO", "CT", "DE", "FL", "GA", "HI", "ID",
   "IL", "IN", "IA", "KS", "KY", "LA", "ME", "MD", "MA", "MI", "MN", "MS",
   "MO", "MT", "NE", "NV", "NH", "NJ", "NM", "NY", "NC", "ND", "OH", "OK",
   "OR", "PA", "RI", "SC", "SD", "TN", "TX", "UT", "VT", "VA", "WA", "WV",
   "WI", "WY", "DC"]

/-- Raw photo entry consumed by `transformPlace`. -/
structure RawPhoto where
  name : Option String
  widthPx : Option Nat
  heightPx : Option Nat
deriving Repr, DecidableEq

/-- `latitude`/`longitude` pair of a raw place's `location`. -/
structure LatLngPair where
  latitude : ℚ
  longitude : ℚ
deriving Repr, DecidableEq

/-- `regularOpeningHours` of a raw place. -/
structure RawOpeningHours where
  weekdayDescriptions : Option (List String)
deriving Repr, DecidableEq

/-- `accessibilityOptions` capability group (only the flag the code reads). -/
structure AccessibilityOptions where
  wheelchair_accessible_entrance : Option Bool
deriving Repr, DecidableEq

/-- `parkingOptions` capability group (only the flag the code reads). -/
structure ParkingOptions where
  free_parking_lot : Option Bool
deriving Repr, DecidableEq

/-- `paymentOptions` capability group (passed through unread). -/
structure PaymentOptions where
  accepts_credit_cards : Option Bool
deriving Repr, DecidableEq

/-- A raw place record as consumed by `isDermatologyClinic` and
`transformPlace`: every field the two functions read, `Option` where the
external source may omit it.  `displayName` stands for `displayName?.text`,
`currentOpenNow` for `currentOpeningHours?.openNow`. -/
structure RawPlace where
  id : Option String
  displayName : Option String
  formattedAddress : Option String
  addressComponents : Option (List AddressComponent)
  location : Option LatLngPair
  primaryType : Option String
  types : Option (List String)
  rating : Option ℚ
  userRatingCount : Option Nat
  currentOpenNow : Option Bool
  regularOpeningHours : Option RawOpeningHours
  nationalPhoneNumber : Option String
  internationalPhoneNumber : Option String
  websiteUri : Option String
  googleMapsUri : Option String
  businessStatus : Option String
  accessibilityOptions : Option AccessibilityOptions
  parkingOptions : Option ParkingOptions
  paymentOptions : Option PaymentOptions
  priceLevel : Option String
  photos : Option (List RawPhoto)
deriving Repr, DecidableEq

/-- Outcome of `isDermatologyClinic` (part_003, lines 195-271) together
with which rejection counter the function increments. -/
inductive ClassifyResult where
  | accept
  | rejectNonUS
  | rejectNonDerm
deriving Repr, DecidableEq

/-- `if (ac.country_code && ac.country_code !== 'US')` (part_003, line 205). -/
def countryRejected : Option String → Bool
  | none => false
  | some s => !(s == "") && !(s == "US")

/-- `if (!ac.state_code || !VALID_US_STATES.has(ac.state_code))`
(part_003, line 210). -/
def stateRejected : Option String → Bool
  | none => true
  | some s => s == "" || !(VALID_US_STATES.contains s)

/-- `excludeTerms` (part_003, lines 216-220). -/
def excludeTerms : List String :=
  ["dental", "dentist", "orthodont", "veterinary", "animal", "pet",
   "massage", "spa resort", "nail salon"]

/-- `coreTerms` (part_003, line 235). -/
def coreTerms : List String := ["dermatology", "dermatologist", "dermatologic"]

/-- `relatedTerms` (part_003, lines 243-248). -/
def relatedTerms : List String :=
  ["skin clinic", "skin center", "skin care clinic", "skin doctor",
   "skin specialist", "skin health", "medical dermatology",
   "cosmetic dermatology", "mohs surgery", "skin cancer"]

/-- The lowercased display name read by the classifier (part_003, line 196). -/
def nameText (p : RawPlace) : String := jsToLower (p.displayName.getD "")

/-- The lowercased website read by the classifier (part_003, line 197). -/
def websiteText (p : RawPlace) : String := jsToLower (p.websiteUri.getD "")

/-- The lowercased joined category tags (part_003, line 198). -/
def typesText (p : RawPlace) : String :=
  jsToLower (String.intercalate " " (p.types.getD []))

/-- `` `${name} ${website} ${types}` `` (part_003, line 199). -/
def searchTextOf (p : RawPlace) : String :=
  nameText p ++ " " ++ websiteText p ++ " " ++ typesText p

/-- `isDermatologyClinic` (part_003, lines 195-271), with the rejection
reason made explicit: the original returns `false` after incrementing
`REJECTED_NON_US` or `REJECTED_NON_DERM`. -/
def classifyPlace (p : RawPlace) : ClassifyResult :=
  let name := nameText p
  let website := websiteText p
  let types := typesText p
  let searchText := searchTextOf p
  let ac := parseAddressComponents (p.addressComponents.getD [])
  if countryRejected ac.country_code then .rejectNonUS
  else if stateRejected ac.state_code then .rejectNonUS
  else if excludeTerms.any (fun t => includesStr searchText t) then .rejectNonDerm
  else if includesStr types "skin_care_clinic" then .accept
  else if coreTerms.any (fun t => includesStr searchText t) then .accept
  else if relatedTerms.any (fun t => includesStr name t || includesStr website t) then .accept
  else if (includesStr searchText "derm" || includesStr name "skin" || includesStr website "skin")
          && (includesStr types "doctor" || includesStr types "health"
              || includesStr searchText "medical" || includesStr searchText "clinic") then .accept
  else .rejectNonDerm

/-- `isDermatologyClinic`'s boolean result. -/
def isDermatologyClinic (p : RawPlace) : Bool :=
  classifyPlace p == .accept

/-- `lat`/`lng` pair as written by `transformPlace` (part_003, line 288)
and consumed by the clinics page. -/
structure LatLng where
  lat : ℚ
  lng : ℚ
deriving Repr, DecidableEq

/-- The `opening_hours` object built by `transformPlace` (part_003,
lines 297-302). -/
structure TransformedOpeningHours where
  open_now : Option Bool
  weekday_text : List String
deriving Repr, DecidableEq

/-- The object literal `transformPlace` returns (part_003, lines 283-319). -/
structure ClinicRecord where
  place_id : Option String
  display_name : Option String
  formatted_address : Option String
  location : Option LatLng
  primary_type : Option String
  types : List String
  rating : Option ℚ
  user_rating_count : Option Nat
  current_open_now : Option Bool
  phone : Option String
  international_phone_number : Option String
  opening_hours : Option TransformedOpeningHours
  website : Option String
  google_maps_uri : Option String
  business_status : Option String
  accessibility_options : Option AccessibilityOptions
  parking_options : Option ParkingOptions
  payment_options : Option PaymentOptions
  price_level : Option String
  city : Option String
  state_code : Option String
  postal_code : Option String
  photos : List RawPhoto
  last_fetched_at : String
deriving Repr, DecidableEq

/-- `transformPlace` (part_003, lines 277-320).  `today` stands for
`new Date().toISOString().slice(0, 10)`; `place.location ? ... : null` and
`place.regularOpeningHours ? ... : null` are object-truthiness tests, i.e.
presence tests; every `?? null` / `?? []` fallback is kept. -/
def transformPlace (today : String) (place : RawPlace) : Option ClinicRecord :=
  let ac := parseAddressComponents (place.addressComponents.getD [])
  if countryRejected ac.country_code then none
  else if stateRejected ac.state_code then none
  else some
    { place_id := place.id
      display_name := place.displayName
      formatted_address := place.formattedAddress
      location := place.location.map (fun l => ⟨l.latitude, l.longitude⟩)
      primary_type := place.primaryType
      types := place.types.getD []
      rating := place.rating
      user_rating_count := place.userRatingCount
      current_open_now := place.currentOpenNow
      phone := place.nationalPhoneNumber
      international_phone_number := place.internationalPhoneNumber
      opening_hours := place.regularOpeningHours.map
        (fun oh => ⟨place.currentOpenNow, oh.weekdayDescriptions.getD []⟩)
      website := place.websiteUri
      google_maps_uri := place.googleMapsUri
      business_status := place.businessStatus
      accessibility_options := place.accessibilityOptions
      parking_options := place.parkingOptions
      payment_options := place.paymentOptions
      price_level := place.priceLevel
      city := ac.city
      state_code := ac.state_code
      postal_code := ac.postal_code
      photos := (place.photos.getD []).map (fun ph => ⟨ph.name, ph.widthPx, ph.heightPx⟩)
      last_fetched_at := today }

/-- `checkRequestLimit` (part_003, lines 163-169): throw if the counter has
reached the ceiling, else increment it (the QPS sleep is elided).  The
returned value is the new counter. -/
def checkRequestLimit (maxRequests totalRequests : Nat) : Except String Nat :=
  if totalRequests ≥ maxRequests then Except.error "Request limit reached"
  else Except.ok (totalRequests + 1)

/-- `makeRequest` (collectAllStates.ts, lines 123-129): increment
`stats.totalRequests`, then throw if it has reached `MAX_REQUESTS` (the
increment survives the throw).  Returns the new counter and whether the
call threw. -/
def makeRequest (maxRequests totalRequests : Nat) : Nat × Bool :=
  let n := totalRequests + 1
  (n, decide (n ≥ maxRequests))

/-- The budget behaviour of one state's loop in `collectStateData`
(collectAllStates.ts, lines 179-211): one `makeRequest` per (city, query)
pair, with the external fetch performed only when the budget check passed;
a budget throw escapes the loop (the inner `try` wraps only the fetch).
Arguments: current counter, number of (city, query) pairs.  Returns
(new counter, fetches performed, threw?). -/
def runStateCalls (maxRequests : Nat) : Nat → Nat → Nat × Nat × Bool
  | n, 0 => (n, 0, false)
  | n, k + 1 =>
      let (n', threw) := makeRequest maxRequests n
      if threw then (n', 0, true)
      else
        let (nf, fetches, threwLater) := runStateCalls maxRequests n' k
        (nf, fetches + 1, threwLater)

/-- Outcome of the batch run: final counter, fetches performed, and the
`statesFailed` / `statesCompleted` bookkeeping of `stats`. -/
structure BatchOutcome where
  totalRequests : Nat
  fetches : Nat
  statesFailed : List String
  statesCompleted : List String
deriving Repr, DecidableEq

/-- The batch main loop (collectAllStates.ts, lines 260-285): every state is
attempted in turn; an error thrown by `collectStateData` — the budget error
included — is caught in the loop body, the state is pushed onto
`statesFailed`, and the loop continues with the next state.  Each state is
a (code, number of (city, query) pairs) entry; the data-dependent
`clinicArray.length === 0` failure case is not modelled (every non-throwing
state counts as completed). -/
def batchCollect (maxRequests : Nat) : List (String × Nat) → Nat → BatchOutcome
  | [], n => ⟨n, 0, [], []⟩
  | (code, k) :: rest, n =>
      let (n', f, threw) := runStateCalls maxRequests n k
      let out := batchCollect maxRequests rest n'
      if threw then
        ⟨out.totalRequests, f + out.fetches, code :: out.statesFailed, out.statesCompleted⟩
      else
        ⟨out.totalRequests, f + out.fetches, out.statesFailed, code :: out.statesCompleted⟩

/-- The budget behaviour of one state's work in part_003's
`collectStateData` (lines 494-602): every grid, text-search and detail
call runs `checkRequestLimit` first, and the budget error is rethrown at
every catch site (lines 392-397, 479-484, 518-523, 540-545, 577-581).
Arguments: current counter, number of budget-checked calls the state's
strategies would make.  Returns (new counter, fetches performed, threw?). -/
def runStateCalls003 (maxRequests : Nat) : Nat → Nat → Nat × Nat × Bool
  | n, 0 => (n, 0, false)
  | n, k + 1 =>
      match checkRequestLimit maxRequests n with
      | Except.error _ => (n, 0, true)
      | Except.ok n' =>
          let (nf, fetches, threwLater) := runStateCalls003 maxRequests n' k
          (nf, fetches + 1, threwLater)

/-- Outcome of part_003's run: final counter, fetches performed, states
entered before the run stopped. -/
structure RunOutcome where
  totalRequests : Nat
  fetches : Nat
  statesProcessed : Nat
deriving Repr, DecidableEq

/-- part_003's `main` loop (lines 641-656): states are processed in turn;
when a state's collection rethrows the budget ("Request limit") error, the
loop `break`s — no further state is attempted. -/
def comprehensiveMain (maxRequests : Nat) : List (String × Nat) → Nat → RunOutcome
  | [], n => ⟨n, 0, 0⟩
  | (_, k) :: rest, n =>
      let (n', f, threw) := runStateCalls003 maxRequests n k
      if threw then ⟨n', f, 1⟩
      else
        let out := comprehensiveMain maxRequests rest n'
        ⟨out.totalRequests, f + out.fetches, out.statesProcessed + 1⟩

/-- JS `Map.prototype.set` keyed by identifier, the map modelled as its
insertion-ordered entry list: update in place when the key exists, append
otherwise (`clinics.set(clinic.id, clinic)`, collectAllStates.ts line 204). -/
def mapSet {α : Type} (m : List (String × α)) (k : String) (v : α) : List (String × α) :=
  if m.any (fun e => e.1 == k) then m.map (fun e => if e.1 == k then (k, v) else e)
  else m ++ [(k, v)]

/-- The Deduplicating Aggregator: fold a stream of keyed records into a
`Map` by `place_id` (`collectStateData`, collectAllStates.ts lines 176-211). -/
def aggregate {α : Type} (xs : List (String × α)) : List (String × α) :=
  xs.foldl (fun m kv => mapSet m kv.1 kv.2) []

/-- JS `Set.prototype.add`: part_003's id-level merge
(`allClinicIds.add(id)`, lines 505-545). -/
def setAdd (s : List String) (x : String) : List String :=
  if s.contains x then s else s ++ [x]

/-- part_003's id-level Deduplicating Aggregator: fold discovered ids into
`allClinicIds` (lines 505-545). -/
def aggregateIds (xs : List String) : List String :=
  xs.foldl setAdd []

/-- Modelled from the spec: the `Clinic` type of `@/lib/dataTypes` (not
under src/), §3 "Normalized Clinic Record", restricted to the fields the
clinics page reads.  The geographic pair is non-nullable ("Geographic:
latitude/longitude pair"); there is no distance field ("Derived/ephemeral:
distance-from-query-point (computed only during a location-based search;
not persisted)"). -/
structure Clinic where
  place_id : String
  display_name : Option String
  formatted_address : Option String
  city : Option String
  state_code : Option String
  postal_code : Option String
  types : Option (List String)
  primary_type : Option String
  rating : Option ℚ
  user_rating_count : Option Nat
  website : Option String
  phone : Option String
  accessibility_options : Option AccessibilityOptions
  parking_options : Option ParkingOptions
  current_open_now : Option Bool
  opening_hours : Option TransformedOpeningHours
  location : LatLng
deriving Repr, DecidableEq

/-- The template literal `handleSearch` matches against (part_000, lines
74-81), whitespace of the literal included, then `.toLowerCase()`. -/
def searchableText (clinic : Clinic) : String :=
  jsToLower ("\n        " ++ clinic.display_name.getD "" ++ " \n        "
    ++ clinic.formatted_address.getD "" ++ " \n        "
    ++ clinic.city.getD "" ++ "\n        "
    ++ clinic.state_code.getD "" ++ "\n        "
    ++ (clinic.types.map (String.intercalate " ")).getD "" ++ "\n        "
    ++ clinic.primary_type.getD "" ++ "\n      ")

/-- `/^\d{5}$/.test(trimmedQuery)` (part_000, line 67). -/
def isZipCode (s : String) : Bool :=
  s.length == 5 && s.data.all Char.isDigit

/-- `handleSearch` (part_000, lines 59-87), as the function from the loaded
`clinics` list and the query to the new `filteredClinics` value. -/
def handleSearch (clinics : List Clinic) (query : String) : List Clinic :=
  if query == "" || jsTrim query == "" then clinics
  else
    let trimmedQuery := jsTrim query
    let lowerQuery := jsToLower trimmedQuery
    let isZip := isZipCode trimmedQuery
    clinics.filter (fun clinic =>
      if isZip then clinic.postal_code == some trimmedQuery
      else includesStr (searchableText clinic) lowerQuery)

/-- Degrees to radians. -/
noncomputable def degToRad (d : ℚ) : ℝ := (d : ℝ) * Real.pi / 180

/-- Modelled from the spec: `calculateDistance` of `@/lib/utils` (not under
src/); §4.6 specifies "compute great-circle distance from the reference
point to each record's coordinates".  Great-circle distance on a sphere of
the mean Earth radius in km, by the spherical law of cosines. -/
noncomputable def calculateDistance (p q : LatLng) : ℝ :=
  6371 * Real.arccos (Real.sin (degToRad p.lat) * Real.sin (degToRad q.lat)
    + Real.cos (degToRad p.lat) * Real.cos (degToRad q.lat)
      * Real.cos (degToRad p.lng - degToRad q.lng))

/-- The comparator relation of `.sort((a, b) => a.distance - b.distance)`
(part_000, line 98). -/
def distLE (a b : Clinic × ℝ) : Prop := a.2 ≤ b.2

noncomputable instance : DecidableRel distLE :=
  fun a b => Real.decidableLE a.2 b.2

instance : IsTotal (Clinic × ℝ) distLE :=
  ⟨fun a b => le_total a.2 b.2⟩

instance : IsTrans (Clinic × ℝ) distLE :=
  ⟨fun _ _ _ hab hbc => le_trans hab hbc⟩

/-- `handleLocationSearch` (part_000, lines 89-100): spread each clinic with
a derived `distance` field (modelled as pairing), then sort the fresh array
ascending by distance. -/
noncomputable def handleLocationSearch (lat lng : ℚ) (clinics : List Clinic) :
    List (Clinic × ℝ) :=
  let clinicsWithDistance :=
    clinics.map (fun clinic => (clinic, calculateDistance ⟨lat, lng⟩ clinic.location))
  clinicsWithDistance.insertionSort distLE

/-- JS truthiness of a nullable number: `null`, `undefined` and `0` are falsy. -/
def jsTruthyNum : Option ℚ → Bool
  | none => false
  | some r => !(r == 0)

/-- JS `<` on strings: lexicographic by character. -/
def charListLt : List Char → List Char → Bool
  | [], [] => false
  | [], _ :: _ => true
  | _ :: _, [] => false
  | a :: as, b :: bs => a < b || (a == b && charListLt as bs)

/-- `a ≤ b` for the JS string comparator `aVal < bVal ? -1 : aVal > bVal ? 1 : 0`. -/
def strLeJS (a b : String) : Bool := !(charListLt b.data a.data)

/-- The three `sort_by` modes (part_000, lines 149-161). -/
inductive SortBy where
  | rating
  | reviews
  | name
deriving Repr, DecidableEq

/-- The two `sort_order` values. -/
inductive SortOrder where
  | asc
  | desc
deriving Repr, DecidableEq

/-- Modelled from the spec: the `FilterOptions` type of `@/lib/dataTypes`
(not under src/), with the fields §4.6 lists and part_000 reads.  Optional
booleans are collapsed to `Bool` (absent = `false`, which JS truthiness
makes equivalent). -/
structure FilterOptions where
  rating_min : Option ℚ
  has_website : Bool
  has_phone : Bool
  wheelchair_accessible : Bool
  free_parking : Bool
  open_now : Bool
  states : Option (List String)
  sort_by : Option SortBy
  sort_order : Option SortOrder
deriving Repr, DecidableEq

/-- The sort of `applyFilters` (part_000, lines 145-172), by the JS
comparator on the selected key; `filters.sort_order === 'asc'` picks the
ascending branch, anything else the descending one. -/
def sortClinics (sb : SortBy) (asc : Bool) (l : List Clinic) : List Clinic :=
  match sb with
  | .rating =>
      if asc then l.insertionSort (fun a b => a.rating.getD 0 ≤ b.rating.getD 0)
      else l.insertionSort (fun a b => b.rating.getD 0 ≤ a.rating.getD 0)
  | .reviews =>
      if asc then l.insertionSort (fun a b => a.user_rating_count.getD 0 ≤ b.user_rating_count.getD 0)
      else l.insertionSort (fun a b => b.user_rating_count.getD 0 ≤ a.user_rating_count.getD 0)
  | .name =>
      if asc then
        l.insertionSort (fun a b =>
          strLeJS (jsToLower (a.display_name.getD "")) (jsToLower (b.display_name.getD "")) = true)
      else
        l.insertionSort (fun a b =>
          strLeJS (jsToLower (b.display_name.getD "")) (jsToLower (a.display_name.getD "")) = true)

/-- `applyFilters` (part_000, lines 102-175), as the function from the
loaded `clinics` list and the filter configuration to the pair (contents of
the source array after the call, new `filteredClinics` value).  The local
`filtered` starts as the spread copy `[...clinics]`; each filter replaces
it by a fresh `.filter` result; the in-place `.sort` is applied to that
copy, so the source contents are returned unchanged. -/
def applyFilters (clinics : List Clinic) (filters : FilterOptions) :
    List Clinic × List Clinic :=
  let filtered := clinics
  let filtered := if jsTruthyNum filters.rating_min then
      filtered.filter (fun c => filters.rating_min.getD 0 ≤ c.rating.getD 0)
    else filtered
  let filtered := if filters.has_website then
      filtered.filter (fun c => jsTruthyStr c.website && !(jsTrim (c.website.getD "") == ""))
    else filtered
  let filtered := if filters.has_phone then
      filtered.filter (fun c => jsTruthyStr c.phone && !(jsTrim (c.phone.getD "") == ""))
    else filtered
  let filtered := if filters.wheelchair_accessible then
      filtered.filter (fun c =>
        (c.accessibility_options.bind (·.wheelchair_accessible_entrance)) == some true)
    else filtered
  let filtered := if filters.free_parking then
      filtered.filter (fun c => (c.parking_options.bind (·.free_parking_lot)) == some true)
    else filtered
  let filtered := if filters.open_now then
      filtered.filter (fun c =>
        c.current_open_now == some true
          || (c.opening_hours.bind (·.open_now)) == some true)
    else filtered
  let filtered := match filters.states with
    | some sts =>
        if sts.length > 0 then
          filtered.filter (fun c =>
            jsTruthyStr c.state_code && sts.contains (c.state_code.getD ""))
        else filtered
    | none => filtered
  let filtered := match filters.sort_by with
    | some sb => sortClinics sb (filters.sort_order == some SortOrder.asc) filtered
    | none => filtered
  (clinics, filtered)

/-- `handleSearch` with the source array's post-call contents made explicit:
`.filter` allocates a fresh array and nothing in the body writes to
`clinics` (part_000, lines 59-87). -/
def handleSearchRun (clinics : List Clinic) (query : String) :
    List Clinic × List Clinic :=
  (clinics, handleSearch clinics query)

/-- `handleLocationSearch` with the source array's post-call contents made
explicit: `.map` allocates a fresh array of fresh spread objects and the
in-place `.sort` is applied to that fresh array (part_000, lines 89-100). -/
noncomputable def handleLocationSearchRun (lat lng : ℚ) (clinics : List Clinic) :
    List Clinic × List (Clinic × ℝ) :=
  (clinics, handleLocationSearch lat lng clinics)

/-- Observable events of `textSearchCity`'s pagination loop (part_003,
lines 417-461): a text-search request carrying its `pageToken` (none for
the first page of a query), and the `sleep(NEXT_PAGE_DELAY_MS)` warm-up
delay. -/
inductive PageEv where
  | fetch (tok : Option String)
  | sleep
deriving Repr, DecidableEq

/-- The `do ... while (pageToken && pages < 3)` loop of `textSearchCity`
for one query, driven by the external source's token answer `next` (the
`nextPageToken` the response to a given request token carries).  `fuel` is
`3 - pages`; the loop body fetches, then — whenever a continuation token
came back — sleeps before the `while` test. -/
def textSearchLoop (next : Option String → Option String) :
    Option String → Nat → List PageEv
  | _, 0 => []
  | tok, fuel + 1 =>
      let tokNext := next tok
      PageEv.fetch tok ::
        match tokNext with
        | none => []
        | some t =>
            PageEv.sleep :: (if fuel = 0 then [] else textSearchLoop next (some t) fuel)

/-- One query's event trace: the loop starts with no token and
`pages < 3`. -/
def queryTrace (next : Option String → Option String) : List PageEv :=
  textSearchLoop next none 3

/-- The three query phrasings of `textSearchCity` (part_003, lines
411-415). -/
def cityQueries (city stateCode : String) : List String :=
  ["dermatology clinic in " ++ city ++ " " ++ stateCode,
   "dermatologist " ++ city ++ " " ++ stateCode,
   "skin clinic " ++ city ++ " " ++ stateCode]

/-- `textSearchCity`'s full event trace for one city: the pagination loop
run for each of the three queries in turn; `next q` is the external
source's token behaviour for query `q`. -/
def textSearchCityTrace (next : String → Option String → Option String)
    (city stateCode : String) : List PageEv :=
  ((cityQueries city stateCode).map (fun q => queryTrace (next q))).foldr
    (fun t acc => t ++ acc) []

/-- Is the event a request? -/
def isFetch : PageEv → Bool
  | .fetch _ => true
  | .sleep => false

/-- Is the event a continuation-page request (one carrying a token)? -/
def contPage : PageEv → Bool
  | .fetch (some _) => true
  | _ => false

/-- Number of pages requested in a trace. -/
def countFetches (t : List PageEv) : Nat := t.countP (fun e => isFetch e)

/-- Every adjacent pair (a, b) with b a continuation-page request has
a = sleep. -/
def pairsDelayed : List PageEv → Bool
  | a :: b :: rest => (!contPage b || (a == PageEv.sleep)) && pairsDelayed (b :: rest)
  | _ => true

/-- A mandatory delay is awaited before each continuation-page request: no
continuation request opens the trace, and each one is immediately preceded
by a sleep. -/
def delayedOk (t : List PageEv) : Bool :=
  (match t with
   | [] => true
   | e :: _ => !contPage e) && pairsDelayed t

/-- A raw place with every field absent. -/
def emptyRaw : RawPlace :=
  { id := none, displayName := none, formattedAddress := none,
    addressComponents := none, location := none, primaryType := none,
    types := none, rating := none, userRatingCount := none,
    currentOpenNow := none, regularOpeningHours := none,
    nationalPhoneNumber := none, internationalPhoneNumber := none,
    websiteUri := none, googleMapsUri := none, businessStatus := none,
    accessibilityOptions := none, parkingOptions := none,
    paymentOptions := none, priceLevel := none, photos := none }

/-- Address component list with the given country and state short texts. -/
def usStateComponents (country state : String) : List AddressComponent :=
  [⟨["country"], some country, none⟩,
   ⟨["administrative_area_level_1"], some state, none⟩]

/-- A dermatology clinic in Washington state: country `US`, state `WA`. -/
def waDermPlace : RawPlace :=
  { emptyRaw with
    id := some "wa-1"
    displayName := some "Seattle Dermatology Clinic"
    addressComponents := some (usStateComponents "US" "WA")
    types := some ["doctor"] }

/-- A Californian place whose name holds both the core term "dermatology"
and the exclusion term "spa resort", tagged `skin_care_clinic`. -/
def spaResortPlace : RawPlace :=
  { emptyRaw with
    id := some "spa-1"
    displayName := some "Dermatology Center at the Spa Resort"
    addressComponents := some (usStateComponents "US" "CA")
    types := some ["skin_care_clinic", "doctor"] }

/-- A US/CA place with no identifier. -/
def noIdPlace : RawPlace :=
  { emptyRaw with addressComponents := some (usStateComponents "US" "CA") }

/-- A place with an identifier, German country code and the (valid) state
short text `CA`. -/
def germanPlace : RawPlace :=
  { emptyRaw with
    id := some "g1"
    addressComponents := some (usStateComponents "DE" "CA") }

/-- A clinic with every optional field absent. -/
def emptyClinic : Clinic :=
  { place_id := "", display_name := none, formatted_address := none,
    city := none, state_code := none, postal_code := none, types := none,
    primary_type := none, rating := none, user_rating_count := none,
    website := none, phone := none, accessibility_options := none,
    parking_options := none, current_open_now := none,
    opening_hours := none, location := ⟨0, 0⟩ }

/-- A clinic with postal code 90210. -/
def zipClinic : Clinic :=
  { emptyClinic with
    place_id := "z1", display_name := some "Beverly Hills Derm",
    postal_code := some "90210" }

/-- A clinic whose address contains the digits 90210 but whose postal code
is 10001. -/
def textClinic : Clinic :=
  { emptyClinic with
    place_id := "z2", display_name := some "Uptown Derm",
    formatted_address := some "90210 Fifth Ave, New York, NY",
    postal_code := some "10001" }

/-- Demo list for the search properties. -/
def demoClinics : List Clinic := [zipClinic, textClinic]

/-- C1 counterexample: `WA` is one of the 50 states + DC (it is in the
cleanup script's enumeration), the record's parsed country code is `US`
and its parsed state code is `WA`, yet `isDermatologyClinic` rejects it as
`non_us` — the classifier's enumeration `VALID_US_STATES` holds only the
ten states configured in `US_STATES`, not 50 + DC. -/
theorem classifyPlace_fiftyStates_counterexample :
    VALID_US_STATES_cleanup.contains "WA" = true
      ∧ (parseAddressComponents (waDermPlace.addressComponents.getD [])).country_code = some "US"
      ∧ (parseAddressComponents (waDermPlace.addressComponents.getD [])).state_code = some "WA"
      ∧ VALID_US_STATES.contains "WA" = false
      ∧ classifyPlace waDermPlace = ClassifyResult.rejectNonUS := by
  refine ⟨by decide, by decide, by decide, by decide, by decide⟩

/-- C1 (amended): the classifier rejects with reason `non_us` exactly when
the parsed country code is present (nonempty) and differs from `US`, or
when the parsed state code is absent, empty, or not a member of
`VALID_US_STATES` — the ten-state enumeration actually configured in
`US_STATES`; in particular a US record passes this validity step iff its
state code is among those ten. -/
theorem classifyPlace_rejectNonUS_iff (p : RawPlace) :
    classifyPlace p = ClassifyResult.rejectNonUS ↔
      (countryRejected (parseAddressComponents (p.addressComponents.getD [])).country_code = true
        ∨ stateRejected (parseAddressComponents (p.addressComponents.getD [])).state_code = true) := by
  simp only [classifyPlace]
  split_ifs with h1 h2 <;> simp_all

/-- C2: for a record that passes the US-validity step, the presence of any
exclusion term in the combined lowercase text of name, website and tags
forces rejection with reason `non_dermatology` — the exclusion loop sits
before every accept rule of `isDermatologyClinic`. -/
theorem classifyPlace_exclusion_wins (p : RawPlace)
    (hc : countryRejected (parseAddressComponents (p.addressComponents.getD [])).country_code = false)
    (hs : stateRejected (parseAddressComponents (p.addressComponents.getD [])).state_code = false)
    (hex : excludeTerms.any (fun t => includesStr (searchTextOf p) t) = true) :
    classifyPlace p = ClassifyResult.rejectNonDerm := by
  simp only [classifyPlace]
  simp [hc, hs, hex]

/-- C2 witness: a record whose name holds both "dermatology" and
"spa resort" and whose tags include `skin_care_clinic` is nevertheless
rejected `non_dermatology`. -/
theorem classifyPlace_exclusion_wins_witness :
    countryRejected (parseAddressComponents (spaResortPlace.addressComponents.getD [])).country_code = false
      ∧ stateRejected (parseAddressComponents (spaResortPlace.addressComponents.getD [])).state_code = false
      ∧ excludeTerms.any (fun t => includesStr (searchTextOf spaResortPlace) t) = true
      ∧ includesStr (searchTextOf spaResortPlace) "dermatology" = true
      ∧ includesStr (typesText spaResortPlace) "skin_care_clinic" = true
      ∧ classifyPlace spaResortPlace = ClassifyResult.rejectNonDerm :=
  ⟨by decide, by decide, by decide, by decide, by decide,
   classifyPlace_exclusion_wins spaResortPlace (by decide) (by decide) (by decide)⟩

/-- C5 counterexample: `transformPlace` does not return null for a missing
identifier (the record is produced with `place_id` null), and it does
return null for a record with an identifier and a valid state code whose
country code is `DE` — both directions of the claim's "only when the
identifier is missing or no valid state code" fail. -/
theorem transformPlace_counterexample :
    (noIdPlace.id = none ∧ (transformPlace "2026-10-11" noIdPlace).isSome = true)
      ∧ (germanPlace.id = some "g1"
          ∧ (parseAddressComponents (germanPlace.addressComponents.getD [])).state_code = some "CA"
          ∧ VALID_US_STATES.contains "CA" = true
          ∧ transformPlace "2026-10-11" germanPlace = none) := by
  refine ⟨⟨by decide, by decide⟩, by decide, by decide, by decide, by decide⟩

/-- C5 (amended): `transformPlace` returns null exactly when the parsed
country code is present (nonempty) and differs from `US`, or when the
parsed state code is absent, empty, or not in `VALID_US_STATES`; a missing
identifier does not cause null — the produced record carries the input's
fields through with explicit null fallbacks (`place_id`, `rating`,
`website` shown here), and the function is total (never throws). -/
theorem transformPlace_none_iff (today : String) (place : RawPlace) :
    (transformPlace today place = none ↔
      (countryRejected (parseAddressComponents (place.addressComponents.getD [])).country_code = true
        ∨ stateRejected (parseAddressComponents (place.addressComponents.getD [])).state_code = true))
    ∧ ∀ c, transformPlace today place = some c →
        c.place_id = place.id ∧ c.rating = place.rating ∧ c.website = place.websiteUri := by
  constructor
  · simp only [transformPlace]
    split_ifs <;> simp_all
  · intro c h
    simp only [transformPlace] at h
    split_ifs at h
    simp_all
    subst h
    exact ⟨rfl, rfl, rfl⟩

/-- C6: when the trimmed query matches the 5-digit pattern, `handleSearch`
filters by exact postal-code equality — a record is returned iff its
`postal_code` equals the trimmed query, so records whose other text merely
contains the digits are excluded. -/
theorem handleSearch_zip (clinics : List Clinic) (query : String)
    (hz : isZipCode (jsTrim query) = true) :
    handleSearch clinics query
      = clinics.filter (fun c => c.postal_code == some (jsTrim query)) := by
  have hq : (query == "") = false := by
    cases hqe : query == "" with
    | false => rfl
    | true =>
        rw [beq_iff_eq] at hqe
        subst hqe
        simp [show isZipCode (jsTrim "") = false from by decide] at hz
  have ht : (jsTrim query == "") = false := by
    cases hte : jsTrim query == "" with
    | false => rfl
    | true =>
        rw [beq_iff_eq] at hte
        rw [hte] at hz
        simp [show isZipCode "" = false from by decide] at hz
  simp [handleSearch, hq, ht, hz]

/-- C6 witness: on a two-record list, the query " 90210 " (whitespace
trimmed away) returns exactly the record with postal code 90210, although
the other record's searchable text contains the digits 90210. -/
theorem handleSearch_zip_witness :
    isZipCode (jsTrim " 90210 ") = true
      ∧ handleSearch demoClinics " 90210 "
          = demoClinics.filter (fun c => c.postal_code == some (jsTrim " 90210 "))
      ∧ handleSearch demoClinics " 90210 " = [zipClinic]
      ∧ includesStr (searchableText textClinic) "90210" = true
      ∧ textClinic.postal_code = some "10001" :=
  ⟨by decide, handleSearch_zip demoClinics " 90210 " (by decide),
   by decide, by decide, by decide⟩

/-- C10: an empty or whitespace-only query makes `handleSearch` restore the
full clinic list — every record of the source list, in original order. -/
theorem handleSearch_empty_restores (clinics : List Clinic) (query : String)
    (h : jsTrim query = "") :
    handleSearch clinics query = clinics := by
  unfold handleSearch
  rw [h]
  simp

/-- C10 witness: the whitespace-only query restores the demo list. -/
theorem handleSearch_empty_restores_witness :
    jsTrim "   " = "" ∧ handleSearch demoClinics "   " = demoClinics :=
  ⟨by decide, handleSearch_empty_restores demoClinics "   " (by decide)⟩

/-- C8: the filter/sort/search pipeline never mutates the loaded `clinics`
list: each handler is modelled with the source array's post-call contents
made explicit (the only in-place operation, `.sort`, is applied to the
spread copy in `applyFilters` and to the fresh `.map` result in
`handleLocationSearch`), and those contents equal the input list — same
elements, same order — while the result is built afresh. -/
theorem pipeline_preserves_source (clinics : List Clinic) (filters : FilterOptions)
    (query : String) (lat lng : ℚ) :
    (applyFilters clinics filters).1 = clinics
      ∧ (handleSearchRun clinics query).1 = clinics
      ∧ (handleLocationSearchRun lat lng clinics).1 = clinics :=
  ⟨rfl, rfl, rfl⟩

/-- C7: `handleLocationSearch` returns the clinics each paired with the
derived distance `calculateDistance` from the reference point to its
coordinates (the `Clinic` record itself has no distance field), as a
permutation of the distance-annotated input, sorted ascending by that
distance (`distLE` compares the attached distances). -/
theorem handleLocationSearch_sorted (lat lng : ℚ) (clinics : List Clinic) :
    List.Sorted distLE (handleLocationSearch lat lng clinics)
      ∧ (handleLocationSearch lat lng clinics).Perm
          (clinics.map (fun c => (c, calculateDistance ⟨lat, lng⟩ c.location))) :=
  ⟨List.sorted_insertionSort distLE _, List.perm_insertionSort distLE _⟩

/-- With the counter at or past the ceiling, the batch loop still walks
every remaining state: one counter increment per state, no fetch, every
state pushed onto `statesFailed`. -/
theorem batchCollect_at_ceiling (maxRequests : Nat) (sts : List (String × Nat)) :
    ∀ n, maxRequests ≤ n → (∀ e ∈ sts, 1 ≤ e.2) →
      batchCollect maxRequests sts n = ⟨n + sts.length, 0, sts.map Prod.fst, []⟩ := by
  induction sts with
  | nil => intro n _ _; simp [batchCollect]
  | cons s rest ih =>
      intro n hceil hk
      obtain ⟨code, k⟩ := s
      have hk1 : 1 ≤ k := hk (code, k) (List.mem_cons_self _ _)
      obtain ⟨k', rfl⟩ : ∃ k', k = k' + 1 := ⟨k - 1, by omega⟩
      have hb : (decide (n + 1 ≥ maxRequests)) = true := decide_eq_true (by omega)
      have hstep : runStateCalls maxRequests n (k' + 1) = (n + 1, 0, true) := by
        simp only [runStateCalls, makeRequest]
        rw [hb]
        simp
      have hrest := ih (n + 1) (by omega) (fun e he => hk e (List.mem_cons_of_mem _ he))
      have hunf : batchCollect maxRequests ((code, k' + 1) :: rest) n
          = ⟨(batchCollect maxRequests rest (n + 1)).totalRequests,
             0 + (batchCollect maxRequests rest (n + 1)).fetches,
             code :: (batchCollect maxRequests rest (n + 1)).statesFailed,
             (batchCollect maxRequests rest (n + 1)).statesCompleted⟩ := by
        simp only [batchCollect]
        rw [hstep]
        simp
      rw [hunf, hrest]
      simp
      omega

/-- C3 counterexample: ceiling 1, two states of two (city, query) pairs
each, counter 0.  The very first `makeRequest` of state AL raises the
budget error, yet the batch main loop does not halt: state AK is still
attempted (its `makeRequest` increments the counter to 2) and both states
end in `statesFailed` — the run was not stopped when the ceiling was
reached, contradicting "no remaining state ... is processed after the
ceiling is reached". -/
theorem batchCollect_no_halt_counterexample :
    (runStateCalls 1 0 2).2.2 = true
      ∧ batchCollect 1 [("AL", 2), ("AK", 2)] 0
          = ⟨2, 0, ["AL", "AK"], []⟩ := by
  refine ⟨by decide, by decide⟩

/-- C3 (amended): every call runs through the shared budget counter, and
once the counter has reached the ceiling every further call fails fast
before any fetch.  In the comprehensive script `checkRequestLimit` throws
without touching the counter, the error is rethrown at every call site and
`main` breaks: nothing further — no state, grid point, city or detail
fetch — is processed.  In collectAllStates.ts, however, `main` catches the
error per state and keeps iterating: every remaining state is still
attempted (one counter increment each, recorded in `statesFailed`); no
external fetch happens after the ceiling, but the run itself is not
halted. -/
theorem budget_ceiling_behaviour (maxRequests n : Nat) (sts : List (String × Nat))
    (hceil : maxRequests ≤ n) (hk : ∀ e ∈ sts, 1 ≤ e.2) :
    checkRequestLimit maxRequests n = Except.error "Request limit reached"
      ∧ comprehensiveMain maxRequests sts n = ⟨n, 0, min sts.length 1⟩
      ∧ batchCollect maxRequests sts n = ⟨n + sts.length, 0, sts.map Prod.fst, []⟩ := by
  refine ⟨by simp [checkRequestLimit, hceil], ?_, batchCollect_at_ceiling maxRequests sts n hceil hk⟩
  cases sts with
  | nil => simp [comprehensiveMain]
  | cons s rest =>
      obtain ⟨code, k⟩ := s
      have hk1 : 1 ≤ k := hk (code, k) (List.mem_cons_self _ _)
      obtain ⟨k', rfl⟩ : ∃ k', k = k' + 1 := ⟨k - 1, by omega⟩
      have herr : checkRequestLimit maxRequests n = Except.error "Request limit reached" := by
        simp [checkRequestLimit, hceil]
      simp only [comprehensiveMain, runStateCalls003, herr]
      have : min (rest.length + 1) 1 = 1 := by omega
      simp [this]

/-- C3 witness for the amended statement, at ceiling 2, counter 5, one
state of three pairs. -/
theorem budget_ceiling_behaviour_witness :
    checkRequestLimit 2 5 = Except.error "Request limit reached"
      ∧ comprehensiveMain 2 [("CA", 3)] 5 = ⟨5, 0, 1⟩
      ∧ batchCollect 2 [("CA", 3)] 5 = ⟨6, 0, ["CA"], []⟩ := by
  have h := budget_ceiling_behaviour 2 5 [("CA", 3)] (by decide) (by decide)
  exact ⟨h.1, h.2.1, h.2.2⟩

/-- Effect of a `Map.set` on the key list: unchanged when the key is
present, appended otherwise. -/
theorem mapSet_map_fst {α : Type} (m : List (String × α)) (k : String) (v : α) :
    (mapSet m k v).map Prod.fst
      = if k ∈ m.map Prod.fst then m.map Prod.fst else m.map Prod.fst ++ [k] := by
  by_cases h : k ∈ m.map Prod.fst
  · have hany : (m.any fun e => e.1 == k) = true := by
      simp only [List.any_eq_true, beq_iff_eq]
      obtain ⟨e, he, hek⟩ := List.mem_map.mp h
      exact ⟨e, he, hek⟩
    simp only [mapSet, hany, if_true, if_pos h, List.map_map]
    refine List.map_congr_left ?_
    intro e he
    simp only [Function.comp_apply]
    by_cases hek : e.1 = k
    · simp [hek]
    · simp [hek]
  · have hany : (m.any fun e => e.1 == k) = false := by
      rw [Bool.eq_false_iff]
      intro hc
      obtain ⟨e, he, hek⟩ := List.any_eq_true.mp hc
      exact h (List.mem_map.mpr ⟨e, he, by simpa using hek⟩)
    simp [mapSet, hany, if_neg h]

/-- Keys already in the map survive the whole fold. -/
theorem foldl_mapSet_keys_mono {α : Type} (xs : List (String × α)) :
    ∀ (m : List (String × α)) (k : String), k ∈ m.map Prod.fst →
      k ∈ (xs.foldl (fun m kv => mapSet m kv.1 kv.2) m).map Prod.fst := by
  induction xs with
  | nil => intro m k h; simpa using h
  | cons x xs ih =>
      intro m k h
      simp only [List.foldl_cons]
      apply ih
      rw [mapSet_map_fst]
      split_ifs with hx
      · exact h
      · exact List.mem_append.mpr (Or.inl h)

/-- Every folded record's key ends up in the key list. -/
theorem foldl_mapSet_keys_added {α : Type} (xs : List (String × α)) :
    ∀ (m : List (String × α)) (kv : String × α), kv ∈ xs →
      kv.1 ∈ (xs.foldl (fun m kv => mapSet m kv.1 kv.2) m).map Prod.fst := by
  induction xs with
  | nil => intro m kv h; simp at h
  | cons x xs ih =>
      intro m kv h
      simp only [List.foldl_cons]
      rcases List.mem_cons.mp h with rfl | hm
      · apply foldl_mapSet_keys_mono
        rw [mapSet_map_fst]
        split_ifs with hx
        · exact hx
        · exact List.mem_append.mpr (Or.inr (by simp))
      · exact ih _ kv hm

/-- The fold preserves key-list distinctness. -/
theorem foldl_mapSet_keys_nodup {α : Type} (xs : List (String × α)) :
    ∀ m : List (String × α), (m.map Prod.fst).Nodup →
      ((xs.foldl (fun m kv => mapSet m kv.1 kv.2) m).map Prod.fst).Nodup := by
  induction xs with
  | nil => intro m h; simpa using h
  | cons x xs ih =>
      intro m h
      simp only [List.foldl_cons]
      apply ih
      rw [mapSet_map_fst]
      split_ifs with hx
      · exact h
      · simp [List.nodup_append, h, hx]

/-- Folding records whose keys are all present leaves the key list as it
was. -/
theorem foldl_mapSet_keys_stable {α : Type} (xs : List (String × α)) :
    ∀ m : List (String × α), (∀ kv ∈ xs, kv.1 ∈ m.map Prod.fst) →
      (xs.foldl (fun m kv => mapSet m kv.1 kv.2) m).map Prod.fst = m.map Prod.fst := by
  induction xs with
  | nil => intro m _; simp
  | cons x xs ih =>
      intro m h
      simp only [List.foldl_cons]
      have hx : x.1 ∈ m.map Prod.fst := h x (List.mem_cons_self _ _)
      have hkeys : (mapSet m x.1 x.2).map Prod.fst = m.map Prod.fst := by
        rw [mapSet_map_fst, if_pos hx]
      rw [ih _ (fun kv hkv => by rw [hkeys]; exact h kv (List.mem_cons_of_mem _ hkv)), hkeys]

/-- `Set.add` of a present element is the identity. -/
theorem setAdd_mem_eq (s : List String) (x : String) (h : x ∈ s) : setAdd s x = s := by
  simp [setAdd, h]

/-- Elements already in the set survive the whole fold. -/
theorem foldl_setAdd_mono (ys : List String) :
    ∀ (s : List String) (x : String), x ∈ s → x ∈ ys.foldl setAdd s := by
  induction ys with
  | nil => intro s x h; simpa using h
  | cons y ys ih =>
      intro s x h
      simp only [List.foldl_cons]
      apply ih
      unfold setAdd
      split_ifs
      · exact h
      · exact List.mem_append.mpr (Or.inl h)

/-- Every folded id ends up in the set. -/
theorem foldl_setAdd_added (ys : List String) :
    ∀ (s : List String) (y : String), y ∈ ys → y ∈ ys.foldl setAdd s := by
  induction ys with
  | nil => intro s y h; simp at h
  | cons x ys ih =>
      intro s y h
      simp only [List.foldl_cons]
      rcases List.mem_cons.mp h with rfl | hm
      · apply foldl_setAdd_mono
        unfold setAdd
        split_ifs with hx
        · simpa using hx
        · exact List.mem_append.mpr (Or.inr (by simp))
      · exact ih _ y hm

/-- The fold preserves distinctness. -/
theorem foldl_setAdd_nodup (ys : List String) :
    ∀ s : List String, s.Nodup → (ys.foldl setAdd s).Nodup := by
  induction ys with
  | nil => intro s h; simpa using h
  | cons y ys ih =>
      intro s h
      simp only [List.foldl_cons]
      apply ih
      unfold setAdd
      split_ifs with hx
      · exact h
      · simp_all [List.nodup_append]

/-- Folding ids that are all present leaves the set as it was. -/
theorem foldl_setAdd_stable (ys : List String) :
    ∀ s : List String, (∀ y ∈ ys, y ∈ s) → ys.foldl setAdd s = s := by
  induction ys with
  | nil => intro s _; simp
  | cons y ys ih =>
      intro s h
      simp only [List.foldl_cons]
      have hy : setAdd s y = s := setAdd_mem_eq s y (h y (List.mem_cons_self _ _))
      rw [hy, ih _ (fun z hz => h z (List.mem_cons_of_mem _ hz))]

/-- C4: the Deduplicating Aggregator keeps exactly one record per
`place_id` — the key list of the merged `Map` is duplicate-free — and
merging the same input stream a second time changes neither the
`place_id` list nor the collection's size; the same holds for part_003's
id-level `Set` merge, where the second pass is the identity. -/
theorem aggregate_dedup_idempotent {α : Type} (xs : List (String × α)) (ys : List String) :
    ((aggregate xs).map Prod.fst).Nodup
      ∧ (aggregate (xs ++ xs)).map Prod.fst = (aggregate xs).map Prod.fst
      ∧ (aggregate (xs ++ xs)).length = (aggregate xs).length
      ∧ (aggregateIds ys).Nodup
      ∧ aggregateIds (ys ++ ys) = aggregateIds ys := by
  have h2 : (aggregate (xs ++ xs)).map Prod.fst = (aggregate xs).map Prod.fst := by
    unfold aggregate
    rw [List.foldl_append]
    exact foldl_mapSet_keys_stable xs _ (fun kv hkv => foldl_mapSet_keys_added xs [] kv hkv)
  refine ⟨foldl_mapSet_keys_nodup xs [] (by simp), h2, ?_, foldl_setAdd_nodup ys [] (by simp), ?_⟩
  · have := congrArg List.length h2
    simpa using this
  · unfold aggregateIds
    rw [List.foldl_append]
    exact foldl_setAdd_stable ys _ (fun y hy => foldl_setAdd_added ys [] y hy)

/-- Per query, the pagination loop requests at most `fuel` pages and emits
at most `2 * fuel` events. -/
theorem textSearchLoop_fetch_bound (next : Option String → Option String) :
    ∀ (fuel : Nat) (tok : Option String),
      countFetches (textSearchLoop next tok fuel) ≤ fuel
        ∧ (textSearchLoop next tok fuel).length ≤ 2 * fuel := by
  intro fuel
  induction fuel with
  | zero => intro tok; simp [textSearchLoop, countFetches]
  | succ fuel ih =>
      intro tok
      simp only [textSearchLoop]
      cases hn : next tok with
      | none =>
          simp [countFetches, List.countP_cons, List.countP_nil, isFetch]
          omega
      | some t =>
          by_cases hf : fuel = 0
          · subst hf
            simp [countFetches, List.countP_cons, List.countP_nil, isFetch]
          · have hrec := ih (some t)
            simp only [if_neg hf]
            have h1 : countFetches (PageEv.fetch tok :: PageEv.sleep ::
                textSearchLoop next (some t) fuel)
                = countFetches (textSearchLoop next (some t) fuel) + 1 := by
              simp [countFetches, List.countP_cons, isFetch]
            constructor
            · rw [h1]; omega
            · simp only [List.length_cons]; omega

/-- Prepending a sleep preserves the delay pairing. -/
theorem pairsDelayed_cons_sleep (l : List PageEv) (h : pairsDelayed l = true) :
    pairsDelayed (PageEv.sleep :: l) = true := by
  cases l with
  | nil => rfl
  | cons b rest => simp [pairsDelayed, h]

/-- Prepending a fetch before a sleep preserves the delay pairing. -/
theorem pairsDelayed_fetch_sleep (tok : Option String) (l : List PageEv)
    (h : pairsDelayed (PageEv.sleep :: l) = true) :
    pairsDelayed (PageEv.fetch tok :: PageEv.sleep :: l) = true := by
  simp [pairsDelayed, contPage, h]

/-- The pagination loop's trace has every continuation fetch immediately
preceded by a sleep. -/
theorem textSearchLoop_pairs (next : Option String → Option String) :
    ∀ (fuel : Nat) (tok : Option String),
      pairsDelayed (textSearchLoop next tok fuel) = true := by
  intro fuel
  induction fuel with
  | zero => intro tok; rfl
  | succ fuel ih =>
      intro tok
      simp only [textSearchLoop]
      cases hn : next tok with
      | none => rfl
      | some t =>
          by_cases hf : fuel = 0
          · subst hf
            rfl
          · simp only [if_neg hf]
            exact pairsDelayed_fetch_sleep tok _ (pairsDelayed_cons_sleep _ (ih (some t)))

/-- A query's trace opens with the token-free first-page request. -/
theorem queryTrace_shape (next : Option String → Option String) :
    ∃ rest, queryTrace next = PageEv.fetch none :: rest := by
  unfold queryTrace textSearchLoop
  cases next none <;> exact ⟨_, rfl⟩

/-- One query's trace is well delayed. -/
theorem delayedOk_queryTrace (next : Option String → Option String) :
    delayedOk (queryTrace next) = true := by
  obtain ⟨rest, hq⟩ := queryTrace_shape next
  have hp : pairsDelayed (queryTrace next) = true := textSearchLoop_pairs next 3 none
  rw [hq] at hp ⊢
  simp [delayedOk, contPage, hp]

/-- Concatenating well-paired traces stays well paired when the second one
does not open with a continuation fetch. -/
theorem pairsDelayed_append (t1 t2 : List PageEv) (h1 : pairsDelayed t1 = true)
    (h2 : pairsDelayed t2 = true)
    (hh : ∀ e l, t2 = e :: l → contPage e = false) :
    pairsDelayed (t1 ++ t2) = true := by
  induction t1 with
  | nil => simpa using h2
  | cons a t1 ih =>
      cases t1 with
      | nil =>
          cases t2 with
          | nil => simpa using h1
          | cons e l =>
              simp only [List.cons_append, List.nil_append]
              simp [pairsDelayed, hh e l rfl, h2]
      | cons b t1' =>
          have h1' : (!contPage b || (a == PageEv.sleep)) = true
              ∧ pairsDelayed (b :: t1') = true := by
            simpa [pairsDelayed, Bool.and_eq_true] using h1
          have hrest := ih h1'.2
          simp only [List.cons_append] at hrest ⊢
          simp [pairsDelayed, h1'.1, hrest]

/-- Concatenating well-delayed traces stays well delayed when the second
one does not open with a continuation fetch. -/
theorem delayedOk_append (t1 t2 : List PageEv) (h1 : delayedOk t1 = true)
    (h2 : delayedOk t2 = true)
    (hh : ∀ e l, t2 = e :: l → contPage e = false) :
    delayedOk (t1 ++ t2) = true := by
  unfold delayedOk at h1 h2
  rw [Bool.and_eq_true] at h1 h2
  obtain ⟨h1h, h1p⟩ := h1
  obtain ⟨h2h, h2p⟩ := h2
  have hp := pairsDelayed_append t1 t2 h1p h2p hh
  have h2' : delayedOk t2 = true := by
    unfold delayedOk
    rw [Bool.and_eq_true]
    exact ⟨h2h, h2p⟩
  cases t1 with
  | nil => simpa using h2'
  | cons a l1 =>
      simp only [delayedOk, List.cons_append, Bool.and_eq_true]
      exact ⟨by simpa using h1h, by simpa using hp⟩

/-- C9: for every city, state and every token behaviour of the external
source, `textSearchCity`'s pagination requests at most 3 pages per query
(the whole trace stays finite: at most 6 events per query), and the
mandatory `NEXT_PAGE_DELAY_MS` sleep is awaited immediately before every
continuation-page request of the city's trace.  Totality of
`textSearchCityTrace` over arbitrary `next` is the loop's termination for
every sequence of continuation tokens. -/
theorem textSearchCity_pagination (next : String → Option String → Option String)
    (city stateCode : String) :
    (∀ q : String, countFetches (queryTrace (next q)) ≤ 3
        ∧ (queryTrace (next q)).length ≤ 6)
      ∧ delayedOk (textSearchCityTrace next city stateCode) = true
      ∧ countFetches (textSearchCityTrace next city stateCode) ≤ 9 := by
  have hq : ∀ q : String, countFetches (queryTrace (next q)) ≤ 3
      ∧ (queryTrace (next q)).length ≤ 6 := by
    intro q
    simpa [queryTrace] using textSearchLoop_fetch_bound (next q) 3 none
  have hhead : ∀ (q : String) (e : PageEv) (l : List PageEv),
      queryTrace (next q) = e :: l → contPage e = false := by
    intro q e l h
    obtain ⟨rest, hsh⟩ := queryTrace_shape (next q)
    rw [hsh] at h
    cases h
    rfl
  have hunf : textSearchCityTrace next city stateCode
      = queryTrace (next ("dermatology clinic in " ++ city ++ " " ++ stateCode))
        ++ (queryTrace (next ("dermatologist " ++ city ++ " " ++ stateCode))
          ++ (queryTrace (next ("skin clinic " ++ city ++ " " ++ stateCode)) ++ [])) := by
    simp [textSearchCityTrace, cityQueries]
  refine ⟨hq, ?_, ?_⟩
  · rw [hunf]
    refine delayedOk_append _ _ (delayedOk_queryTrace _) ?_ ?_
    · refine delayedOk_append _ _ (delayedOk_queryTrace _) ?_ ?_
      · simpa using delayedOk_queryTrace (next ("skin clinic " ++ city ++ " " ++ stateCode))
      · intro e l h
        exact hhead _ e l (by simpa using h)
    · intro e l h
      rcases List.append_eq_cons_iff.mp h with ⟨h1, _⟩ | ⟨as, h1, _⟩
      · obtain ⟨rest, hsh⟩ := queryTrace_shape (next ("dermatologist " ++ city ++ " " ++ stateCode))
        rw [h1] at hsh
        cases hsh
      · exact hhead _ e as h1
  · rw [hunf]
    have h1 := (hq ("dermatology clinic in " ++ city ++ " " ++ stateCode)).1
    have h2 := (hq ("dermatologist " ++ city ++ " " ++ stateCode)).1
    have h3 := (hq ("skin clinic " ++ city ++ " " ++ stateCode)).1
    simp only [countFetches, List.countP_append, List.countP_nil] at h1 h2 h3 ⊢
    omega
